import Mathlib

/-!
Shallow embedding of the v4l2_camera core (src/v4l2_camera_device.cpp and
src/v4l2_camera.cpp).  The kernel device is modelled by a `Device` record of
response functions for each ioctl the code issues; the `V4l2CameraDevice`
object state is the `CamState` record.  Each C++ member function becomes a
Lean function from `Device` and `CamState` to its result and updated state.
-/

set_option autoImplicit false

/-- PixelFormat: pixel format code, dimensions, stride and image byte size,
as constructed from a `v4l2_pix_format` struct. -/
structure PixFmt where
  pixelFormat : Nat
  width : Nat
  height : Nat
  bytesPerLine : Nat
  imageByteSize : Nat
deriving DecidableEq

/-- ImageFormat: one entry produced by `VIDIOC_ENUM_FMT` (a `v4l2_fmtdesc`). -/
structure FmtDesc where
  pixelFormat : Nat
  description : String
deriving DecidableEq

/-- Control descriptor cached in `controls_` by `listControls`. -/
structure Control where
  id : Nat
  name : String
  ctype : Nat
  minimum : Int
  maximum : Int
  defaultValue : Int
  menuItems : List (Int × String)
deriving DecidableEq

/-- A buffer slot of `buffers_`: `start = some region` models a successfully
mmapped region (the region is the byte content at each offset); `none` models
a default-constructed slot or a `MAP_FAILED` result. -/
structure Buffer where
  index : Nat
  length : Nat
  start : Option (Nat → Nat)

/-- Image message assembled by `capture` (width, height, step, encoding tag,
payload bytes). -/
structure Image where
  width : Nat
  height : Nat
  step : Nat
  encoding : String
  data : List Nat

/-- A control as the kernel knows it: id, metadata, the DISABLED flag, and
the `VIDIOC_QUERYMENU` answer for each index. -/
structure DevCtrl where
  id : Nat
  name : String
  ctype : Nat
  minimum : Int
  maximum : Int
  defaultValue : Int
  disabled : Bool
  menuLabel : Int → Option String

/-- The kernel device model: one response function per ioctl the code uses. -/
structure Device where
  openOk : Bool
  querycapOk : Bool
  caps : Nat
  gfmt : Option PixFmt
  fmtdescs : List FmtDesc
  ctrls : List DevCtrl
  g_ctrl : Nat → Option Int
  s_ctrl : Nat → Int → Bool
  s_fmt : Nat → Nat → Nat → Option PixFmt
  reqbufsGrant : Nat → Nat
  bufLength : Nat → Nat
  mmapOk : Nat → Bool
  region : Nat → Nat → Nat
  qbufOk : Nat → Bool
  streamonOk : Bool
  streamoffOk : Bool
  dqbuf : Option Nat

/-- The mutable member state of a `V4l2CameraDevice`. -/
structure CamState where
  capabilities_ : Nat
  cur_data_format_ : PixFmt
  image_formats_ : List FmtDesc
  controls_ : List Control
  buffers_ : List Buffer

/-- `v4l2_fourcc(a,b,c,d)` macro. -/
def v4l2_fourcc (a b c d : Nat) : Nat :=
  a ||| (b <<< 8) ||| (c <<< 16) ||| (d <<< 24)

/-- `V4L2_PIX_FMT_YUYV` = fourcc of "YUYV". -/
def V4L2_PIX_FMT_YUYV : Nat := v4l2_fourcc 0x59 0x55 0x59 0x56

/-- `V4L2_CID_USER_CLASS` from videodev2.h. -/
def V4L2_CID_USER_CLASS : Nat := 0x00980001

/-- `V4L2_CTRL_FLAG_NEXT_CTRL` from videodev2.h. -/
def V4L2_CTRL_FLAG_NEXT_CTRL : Nat := 0x80000000

/-- A zero-initialised `PixelFormat` (from a value-initialised struct). -/
def zeroPixFmt : PixFmt :=
  { pixelFormat := 0, width := 0, height := 0, bytesPerLine := 0, imageByteSize := 0 }

/-- `VIDIOC_QUERYCTRL` on a plain id: succeeds iff the device has a control
with exactly that id. -/
def exactCtrl (ctrls : List DevCtrl) (id : Nat) : Option DevCtrl :=
  ctrls.find? (fun c => c.id == id)

/-- `VIDIOC_QUERYCTRL` with `V4L2_CTRL_FLAG_NEXT_CTRL`: returns the device
control with the smallest id strictly greater than the base id. -/
def nextCtrl (ctrls : List DevCtrl) (base : Nat) : Option DevCtrl :=
  ctrls.foldl
    (fun acc c =>
      if base < c.id then
        match acc with
        | none => some c
        | some b => if c.id < b.id then some c else some b
      else acc)
    none

/-- `VIDIOC_QUERYCTRL` dispatch: with the NEXT_CTRL bit set the kernel finds
the next control by id; without it, the control with that exact id. -/
def queryCtrl (ctrls : List DevCtrl) (qid : Nat) : Option DevCtrl :=
  if V4L2_CTRL_FLAG_NEXT_CTRL ≤ qid then
    nextCtrl ctrls (qid % V4L2_CTRL_FLAG_NEXT_CTRL)
  else
    exactCtrl ctrls qid

/-- Menu-item query loop of `listControls`: for `i` in
`[minimum, maximum]`, a successful `VIDIOC_QUERYMENU` adds `(i, label)`;
failed entries are skipped. -/
def menuItemsFor (c : DevCtrl) : List (Int × String) :=
  (List.range (c.maximum - c.minimum + 1).toNat).filterMap
    (fun k => (c.menuLabel (c.minimum + k)).map (fun s => (c.minimum + k, s)))

/-- V4L2_CTRL_TYPE_MENU numeric tag (the `ControlType::MENU` enum value). -/
def CT_MENU : Nat := 3

/-- Building the cached `Control` from a successful query, including the
menu-item query loop for menu-typed controls. -/
def mkControl (c : DevCtrl) : Control :=
  { id := c.id, name := c.name, ctype := c.ctype, minimum := c.minimum,
    maximum := c.maximum, defaultValue := c.defaultValue,
    menuItems := if c.ctype = CT_MENU then menuItemsFor c else [] }

/-- The `listControls` while-loop.  `qid` is the current `queryctrl.id`; a
successful query writes the found control's id back into `queryctrl.id`.  A
disabled control hits `continue`, which skips the
`queryctrl.id |= V4L2_CTRL_FLAG_NEXT_CTRL` advance, so the next iteration
re-queries the same plain id.  `fuel` bounds the number of iterations we
unfold; `none` means the loop did not finish within `fuel` steps. -/
def listControlsAux (dev : Device) (qid : Nat) : Nat → Option (List Control)
  | 0 => none
  | fuel + 1 =>
    match queryCtrl dev.ctrls qid with
    | none => some []
    | some c =>
      if c.disabled then
        listControlsAux dev c.id fuel
      else
        match listControlsAux dev (c.id ||| V4L2_CTRL_FLAG_NEXT_CTRL) fuel with
        | none => none
        | some rest => some (mkControl c :: rest)

/-- `V4l2CameraDevice::listControls`, started from
`V4L2_CID_USER_CLASS | V4L2_CTRL_FLAG_NEXT_CTRL`. -/
def listControls (dev : Device) (fuel : Nat) : Option (List Control) :=
  listControlsAux dev (V4L2_CID_USER_CLASS ||| V4L2_CTRL_FLAG_NEXT_CTRL) fuel

/-- `VIDIOC_ENUM_FMT` at an index succeeds iff the index is in range of the
device's format table. -/
def enumFmt (dev : Device) (idx : Nat) : Option FmtDesc :=
  dev.fmtdescs.get? idx

/-- The `listImageFormats` while-loop: indexed query until failure. -/
def listImageFormatsAux (dev : Device) (idx : Nat) : List FmtDesc :=
  match h : enumFmt dev idx with
  | none => []
  | some fd => fd :: listImageFormatsAux dev (idx + 1)
termination_by dev.fmtdescs.length - idx
decreasing_by
  simp only [enumFmt] at h
  obtain ⟨hl, -⟩ := List.get?_eq_some.mp h
  omega

/-- `V4l2CameraDevice::listImageFormats`. -/
def listImageFormats (dev : Device) : List FmtDesc :=
  listImageFormatsAux dev 0

/-- `V4l2CameraDevice::open`: fails only when `::open` fails; the
`VIDIOC_QUERYCAP` and `VIDIOC_G_FMT` results are not checked (on a failed
G_FMT the zero-initialised request struct is stored).  `fuel` feeds the
control-enumeration loop; `none` models that loop not terminating. -/
def openDevice (dev : Device) (st : CamState) (fuel : Nat) :
    Option (Bool × CamState) :=
  if dev.openOk = false then some (false, st)
  else
    match listControls dev fuel with
    | none => none
    | some ctls =>
      some (true,
        { st with
          capabilities_ := if dev.querycapOk then dev.caps else st.capabilities_,
          cur_data_format_ := match dev.gfmt with
            | some f => f
            | none => zeroPixFmt,
          image_formats_ := listImageFormats dev,
          controls_ := ctls })

/-- One buffer slot as left by `initMemoryMapping`'s per-buffer loop: index
and `VIDIOC_QUERYBUF` length are written, then `mmap` either yields the
region or `MAP_FAILED` (`none`). -/
def mappedSlot (dev : Device) (i : Nat) : Buffer :=
  { index := i, length := dev.bufLength i,
    start := if dev.mmapOk i then some (dev.region i) else none }

/-- A default-constructed `Buffer` element of `std::vector<Buffer>(count)`. -/
def defaultBuffer : Buffer :=
  { index := 0, length := 0, start := none }

/-- The mapping loop of `initMemoryMapping`, at index `i` with `rem` slots
of the freshly sized `std::vector<Buffer>(count)` still to fill: on the
first `mmap` failure it returns at once, leaving the remaining slots
default-constructed; the result is the loop's success flag and the final
`buffers_` contents from index `i` on. -/
def mapBuffersLoop (dev : Device) (i : Nat) : Nat → Bool × List Buffer
  | 0 => (true, [])
  | rem + 1 =>
    if dev.mmapOk i then
      let r := mapBuffersLoop dev (i + 1) rem
      (r.1, mappedSlot dev i :: r.2)
    else
      (false, mappedSlot dev i :: List.replicate rem defaultBuffer)

/-- `V4l2CameraDevice::initMemoryMapping`: request 4 buffers, fail when the
driver grants fewer than 2, else map each granted buffer in order. -/
def initMemoryMapping (dev : Device) (st : CamState) : Bool × CamState :=
  let cnt := dev.reqbufsGrant 4
  if cnt < 2 then (false, st)
  else
    let r := mapBuffersLoop dev 0 cnt
    (r.1, { st with buffers_ := r.2 })

/-- `V4l2CameraDevice::start`: delegate to `initMemoryMapping`, then queue
every buffer (failing on the first `VIDIOC_QBUF` error), then
`VIDIOC_STREAMON`. -/
def start (dev : Device) (st : CamState) : Bool × CamState :=
  let r := initMemoryMapping dev st
  if r.1 = false then (false, r.2)
  else if r.2.buffers_.all (fun b => dev.qbufOk b.index) = false then (false, r.2)
  else if dev.streamonOk = false then (false, r.2)
  else (true, r.2)

/-- Observable actions of `stop`. -/
inductive StopEv where
  | streamoff_fail : StopEv
  | streamoff_ok : StopEv
  | munmap : Nat → StopEv
  | reqbufs : Nat → StopEv
deriving DecidableEq

/-- `V4l2CameraDevice::stop`: when `VIDIOC_STREAMOFF` fails, return `false`
at once (no cleanup); otherwise munmap every buffer, clear `buffers_`, and
issue a zero-count `VIDIOC_REQBUFS`. -/
def stop (dev : Device) (st : CamState) : Bool × CamState × List StopEv :=
  if dev.streamoffOk = false then
    (false, st, [StopEv.streamoff_fail])
  else
    (true, { st with buffers_ := [] },
      StopEv.streamoff_ok ::
        st.buffers_.map (fun b => StopEv.munmap b.index) ++ [StopEv.reqbufs 0])

/-- Number of buffers of the pool whose region is currently mapped. -/
def countMapped (bs : List Buffer) : Nat :=
  (bs.filter (fun b => b.start.isSome)).length

/-- Observable actions of `capture`, in program order. -/
inductive CapEv where
  | dequeue : Nat → CapEv
  | requeue : Nat → CapEv
  | copyStep : Nat → CapEv
deriving DecidableEq

/-- Byte read of `buffers_[i].start[off]` performed by the copy step. -/
def readBufferByte (st : CamState) (i off : Nat) : Nat :=
  match st.buffers_[i]? with
  | some b =>
    match b.start with
    | some f => f off
    | none => 0
  | none => 0

/-- `V4l2CameraDevice::capture`: `VIDIOC_DQBUF`, then immediately
`VIDIOC_QBUF` of the same buffer, then build the `Image` and copy
`imageByteSize` bytes out of the buffer's mapped region.  The second
component is the trace of buffer operations in the order the code performs
them. -/
def capture (dev : Device) (st : CamState) : Option Image × List CapEv :=
  match dev.dqbuf with
  | none => (none, [])
  | some i =>
    if dev.qbufOk i then
      (some
        { width := st.cur_data_format_.width,
          height := st.cur_data_format_.height,
          step := st.cur_data_format_.bytesPerLine,
          encoding :=
            if st.cur_data_format_.pixelFormat = V4L2_PIX_FMT_YUYV then
              "yuv422_yuy2"
            else "",
          data := (List.range st.cur_data_format_.imageByteSize).map
            (readBufferByte st i) },
        [CapEv.dequeue i, CapEv.requeue i, CapEv.copyStep i])
    else
      (none, [CapEv.dequeue i, CapEv.requeue i])

/-- `V4l2CameraDevice::getControlValue`: returns 0 when `VIDIOC_G_CTRL`
fails. -/
def getControlValue (dev : Device) (id : Nat) : Int :=
  match dev.g_ctrl id with
  | none => 0
  | some v => v

/-- `V4l2CameraDevice::setControlValue`.  The code first looks `id` up in the
cached `controls_` with `std::find_if`; the iterator is dereferenced only in
the two error-logging branches.  When the lookup found nothing, those
branches dereference the end iterator — undefined behaviour, modelled as
`none`.  Otherwise the result is `some` of the device's accept/reject
decision: the settability check is a `VIDIOC_QUERYCTRL` on the plain id, and
the value is passed to `VIDIOC_S_CTRL` unmodified (no min/max check). -/
def setControlValue (dev : Device) (st : CamState) (id : Nat) (value : Int) :
    Option Bool :=
  let control := st.controls_.find? (fun c => c.id == id)
  if (exactCtrl dev.ctrls id).isSome = false then
    match control with
    | none => none
    | some _ => some false
  else if dev.s_ctrl id value = false then
    match control with
    | none => none
    | some _ => some false
  else
    some true

/-- `V4l2CameraDevice::requestDataFormat`: submit pixelformat/width/height
via `VIDIOC_S_FMT`; on success store the format the device wrote back into
the request struct (which may differ from the request). -/
def requestDataFormat (dev : Device) (st : CamState) (format : PixFmt) :
    Bool × CamState :=
  match dev.s_fmt format.pixelFormat format.width format.height with
  | none => (false, st)
  | some rep => (true, { st with cur_data_format_ := rep })

/-- `V4L2Camera::requestPixelFormat`: reject a fourcc string whose length is
not 4; return success without any device request when the current format
already has the requested code; otherwise issue one `requestDataFormat`.
The third component counts the `VIDIOC_S_FMT` requests issued. -/
def requestPixelFormat (dev : Device) (st : CamState) (fourcc : String) :
    Bool × CamState × Nat :=
  match fourcc.toList with
  | [a, b, c, d] =>
    let code := v4l2_fourcc a.toNat b.toNat c.toNat d.toNat
    if st.cur_data_format_.pixelFormat = code then (true, st, 0)
    else
      let r := requestDataFormat dev st
        { st.cur_data_format_ with pixelFormat := code }
      (r.1, r.2, 1)
  | _ => (false, st, 0)

/-- `V4L2Camera::requestImageSize`: reject a size list whose length is not
2; return success without any device request when the current format already
has the requested width and height; otherwise issue one `requestDataFormat`
(the int64 parameters are truncated into the u32 struct fields).  The third
component counts the `VIDIOC_S_FMT` requests issued. -/
def requestImageSize (dev : Device) (st : CamState) (size : List Int) :
    Bool × CamState × Nat :=
  match size with
  | [w, h] =>
    if (st.cur_data_format_.width : Int) = w ∧
        (st.cur_data_format_.height : Int) = h then
      (true, st, 0)
    else
      let r := requestDataFormat dev st
        { st.cur_data_format_ with
          width := (w % (4294967296 : Int)).toNat,
          height := (h % (4294967296 : Int)).toNat }
      (r.1, r.2, 1)
  | _ => (false, st, 0)

/-! ## Concrete devices and states used as witnesses and counterexamples -/

/-- A benign device model whose fields are overridden per scenario. -/
def baseDevice : Device :=
  { openOk := true, querycapOk := true, caps := 0, gfmt := none,
    fmtdescs := [], ctrls := [], g_ctrl := fun _ => none,
    s_ctrl := fun _ _ => true, s_fmt := fun _ _ _ => none,
    reqbufsGrant := fun n => n, bufLength := fun _ => 8,
    mmapOk := fun _ => true, region := fun _ _ => 0,
    qbufOk := fun _ => true, streamonOk := true, streamoffOk := true,
    dqbuf := none }

/-- Fresh camera state before any call. -/
def st0 : CamState :=
  { capabilities_ := 0, cur_data_format_ := zeroPixFmt, image_formats_ := [],
    controls_ := [], buffers_ := [] }

/-- A concrete mapped-region content. -/
def regCap : Nat → Nat := fun off => off + 1

/-- State holding a pool of two mapped buffers. -/
def stBufs : CamState :=
  { st0 with buffers_ := [⟨0, 8, some regCap⟩, ⟨1, 8, some regCap⟩] }

/-- Device whose `VIDIOC_STREAMOFF` fails. -/
def devStopBad : Device := { baseDevice with streamoffOk := false }

/-- Device granting 2 buffers whose second `mmap` fails. -/
def devMap2 : Device :=
  { baseDevice with reqbufsGrant := fun _ => 2, mmapOk := fun i => i == 0 }

/-- A tiny YUYV format (image byte size 4). -/
def fmtSmall : PixFmt := ⟨V4L2_PIX_FMT_YUYV, 2, 1, 4, 4⟩

/-- Device that dequeues buffer 0 and accepts all requeues. -/
def devCap : Device := { baseDevice with dqbuf := some 0 }

/-- Streaming state with the tiny format and two mapped buffers. -/
def stCap : CamState :=
  { st0 with
    cur_data_format_ := fmtSmall,
    buffers_ := [⟨0, 8, some regCap⟩, ⟨1, 8, some regCap⟩] }

/-- A 640x480 YUYV format. -/
def fmt640 : PixFmt := ⟨V4L2_PIX_FMT_YUYV, 640, 480, 1280, 614400⟩

/-- The same format with a different requested size. -/
def fmt800 : PixFmt := { fmt640 with width := 800, height := 600 }

/-- Device that silently substitutes 640x480 for every format request. -/
def devSub : Device := { baseDevice with s_fmt := fun _ _ _ => some fmt640 }

/-- State whose current format is 640x480 YUYV. -/
def st640 : CamState := { st0 with cur_data_format_ := fmt640 }

/-- Device whose only control is flagged disabled. -/
def devDisabled : Device :=
  { baseDevice with
    ctrls := [{ id := 0x00980900, name := "brightness", ctype := 1,
                minimum := 0, maximum := 255, defaultValue := 128,
                disabled := true, menuLabel := fun _ => none }] }

/-- Device whose capability query fails (the file open succeeds). -/
def devQC : Device := { baseDevice with querycapOk := false }

/-- Device whose file open fails. -/
def devNoOpen : Device := { baseDevice with openOk := false }

/-- A device control with range [0, 100]. -/
def ctlBright : DevCtrl := ⟨5, "brightness", 1, 0, 100, 50, false, fun _ => none⟩

/-- The cached descriptor corresponding to `ctlBright`. -/
def controlBright : Control := ⟨5, "brightness", 1, 0, 100, 50, []⟩

/-- Device exposing `ctlBright` and accepting every set request. -/
def devCtl : Device := { baseDevice with ctrls := [ctlBright] }

/-- State whose cached control list holds `controlBright`. -/
def stCtl : CamState := { st0 with controls_ := [controlBright] }

/-- Device exposing `ctlBright` but rejecting every set request. -/
def devReject : Device :=
  { baseDevice with ctrls := [ctlBright], s_ctrl := fun _ _ => false }

/-! ## Claim theorems -/

/-- C1: in the code, every successful `capture()` performs the requeue
(`VIDIOC_QBUF`) immediately after the dequeue and only then copies the
buffer's mapped region into the Frame, so the mapped region is read after
the buffer has been requeued to the device — the dequeue/requeue pair does
not bracket the copy.  The trace of every successful capture is
dequeue, requeue, then the copy. -/
theorem capture_copies_after_requeue (dev : Device) (st : CamState) (i : Nat)
    (h1 : dev.dqbuf = some i) (h2 : dev.qbufOk i = true) :
    (capture dev st).2 = [CapEv.dequeue i, CapEv.requeue i, CapEv.copyStep i] := by
  simp [capture, h1, h2]

/-- C1 witness: a concrete successful capture whose copy step follows the
requeue. -/
theorem capture_copies_after_requeue_witness :
    (capture devCap stCap).2 = [CapEv.dequeue 0, CapEv.requeue 0, CapEv.copyStep 0] :=
  capture_copies_after_requeue devCap stCap 0 rfl rfl

/-- C9: every Frame returned by a successful `capture()` has data length
exactly equal to the current format's `imageByteSize`, its bytes being the
first `imageByteSize` bytes of the dequeued buffer's mapped region. -/
theorem capture_frame_has_format_size (dev : Device) (st : CamState) (i : Nat)
    (b : Buffer) (f : Nat → Nat)
    (h1 : dev.dqbuf = some i) (h2 : dev.qbufOk i = true)
    (h3 : st.buffers_[i]? = some b) (h4 : b.start = some f) :
    ((capture dev st).1.map Image.data) =
      some ((List.range st.cur_data_format_.imageByteSize).map f) ∧
    ((capture dev st).1.map (fun im => im.data.length)) =
      some st.cur_data_format_.imageByteSize := by
  have hr : readBufferByte st i = f := funext fun off => by
    simp [readBufferByte, h3, h4]
  constructor
  · simp [capture, h1, h2, hr]
  · simp [capture, h1, h2]

/-- C9 witness: a concrete capture returning a 4-byte Frame copied from the
mapped region. -/
theorem capture_frame_has_format_size_witness :
    ((capture devCap stCap).1.map Image.data) =
      some ((List.range stCap.cur_data_format_.imageByteSize).map regCap) ∧
    ((capture devCap stCap).1.map (fun im => im.data.length)) =
      some stCap.cur_data_format_.imageByteSize :=
  capture_frame_has_format_size devCap stCap 0 ⟨0, 8, some regCap⟩ regCap
    rfl rfl (by simp [stCap, st0, regCap]) rfl

/-- C2 counterexample: with a failing `VIDIOC_STREAMOFF`, `stop()` returns
failure with both buffers still mapped and no zero-count buffer request
issued — no cleanup happens. -/
theorem stop_failure_skips_cleanup_counterexample :
    (stop devStopBad stBufs).1 = false ∧
    countMapped (stop devStopBad stBufs).2.1.buffers_ = 2 ∧
    StopEv.reqbufs 0 ∉ (stop devStopBad stBufs).2.2 := by
  decide

/-- C2 amended: `stop()` performs full cleanup (unmap, clear the pool, issue
a zero-count buffer request) only when the stream-disable ioctl succeeds;
when that ioctl fails, `stop()` returns failure immediately, leaving the
state untouched and all mapped buffers mapped. -/
theorem stop_cleanup_only_on_streamoff_success (dev : Device) (st : CamState) :
    (dev.streamoffOk = false →
      stop dev st = (false, st, [StopEv.streamoff_fail])) ∧
    (dev.streamoffOk = true →
      (stop dev st).1 = true ∧ (stop dev st).2.1.buffers_ = [] ∧
      StopEv.reqbufs 0 ∈ (stop dev st).2.2) := by
  constructor
  · intro h
    simp [stop, h]
  · intro h
    refine ⟨by simp [stop, h], by simp [stop, h], ?_⟩
    simp [stop, h]

/-- C2 witness: both branches of the amended statement at concrete inputs. -/
theorem stop_cleanup_only_on_streamoff_success_witness :
    stop devStopBad stBufs = (false, stBufs, [StopEv.streamoff_fail]) ∧
    ((stop baseDevice stBufs).1 = true ∧
      (stop baseDevice stBufs).2.1.buffers_ = [] ∧
      StopEv.reqbufs 0 ∈ (stop baseDevice stBufs).2.2) :=
  ⟨(stop_cleanup_only_on_streamoff_success devStopBad stBufs).1 rfl,
   (stop_cleanup_only_on_streamoff_success baseDevice stBufs).2 rfl⟩

/-- Counting a cons cell of the pool. -/
theorem countMapped_cons (b : Buffer) (bs : List Buffer) :
    countMapped (b :: bs) = (if b.start.isSome then 1 else 0) + countMapped bs := by
  cases h : b.start.isSome <;>
    simp [countMapped, List.filter_cons, h, Nat.add_comm]

/-- Default-constructed slots are unmapped. -/
theorem countMapped_replicate_default (n : Nat) :
    countMapped (List.replicate n defaultBuffer) = 0 := by
  induction n with
  | zero => rfl
  | succ k ih =>
    rw [List.replicate_succ, countMapped_cons, ih]
    simp [defaultBuffer]

/-- When the first `mmap` failure inside the mapping loop happens at offset
`m`, the loop fails and exactly the `m` earlier buffers remain mapped. -/
theorem mapBuffersLoop_first_failure (dev : Device) :
    ∀ (rem i m : Nat), m < rem →
      (∀ j, j < m → dev.mmapOk (i + j) = true) →
      dev.mmapOk (i + m) = false →
      (mapBuffersLoop dev i rem).1 = false ∧
      countMapped (mapBuffersLoop dev i rem).2 = m := by
  intro rem
  induction rem with
  | zero =>
    intro i m hm _ _
    exact absurd hm (Nat.not_lt_zero m)
  | succ rem ih =>
    intro i m hm hpre hfail
    cases m with
    | zero =>
      have h0 : dev.mmapOk i = false := by simpa using hfail
      refine ⟨by simp [mapBuffersLoop, h0], ?_⟩
      simp [mapBuffersLoop, h0, countMapped_cons, countMapped_replicate_default,
        mappedSlot]
    | succ k =>
      have h0 : dev.mmapOk i = true := by simpa using hpre 0 (Nat.succ_pos k)
      have hpre' : ∀ j, j < k → dev.mmapOk (i + 1 + j) = true := by
        intro j hj
        rw [Nat.add_assoc, Nat.add_comm 1 j]
        exact hpre (j + 1) (by omega)
      have hfail' : dev.mmapOk (i + 1 + k) = false := by
        rw [Nat.add_assoc, Nat.add_comm 1 k]
        exact hfail
      obtain ⟨ha, hb⟩ := ih (i + 1) k (by omega) hpre' hfail'
      refine ⟨by simp [mapBuffersLoop, h0]; exact ha, ?_⟩
      simp only [mapBuffersLoop, h0, if_true]
      rw [countMapped_cons, hb]
      simp [mappedSlot, h0]
      omega

/-- C3 counterexample: the driver grants 2 buffers, mapping buffer 0
succeeds and mapping buffer 1 fails; both `initMemoryMapping` and `start`
return failure with buffer 0 still mapped — the claim's rollback does not
happen. -/
theorem init_mapping_failure_leaves_mapped_counterexample :
    (initMemoryMapping devMap2 st0).1 = false ∧
    countMapped (initMemoryMapping devMap2 st0).2.buffers_ = 1 ∧
    (start devMap2 st0).1 = false ∧
    countMapped (start devMap2 st0).2.buffers_ = 1 := by
  decide

/-- C3 amended: when the driver grants at least 2 buffers and the first
`mmap` failure happens at index `m`, the allocation returns failure with the
`m` earlier buffers still mapped (no rollback), and `start()` returns the
same failed result, leaving those partially mapped buffers behind. -/
theorem init_mapping_failure_no_rollback (dev : Device) (st : CamState)
    (m : Nat) (h2 : 2 ≤ dev.reqbufsGrant 4) (hm : m < dev.reqbufsGrant 4)
    (hpre : ∀ j, j < m → dev.mmapOk j = true)
    (hfail : dev.mmapOk m = false) :
    (initMemoryMapping dev st).1 = false ∧
    countMapped (initMemoryMapping dev st).2.buffers_ = m ∧
    start dev st = initMemoryMapping dev st := by
  have key := mapBuffersLoop_first_failure dev (dev.reqbufsGrant 4) 0 m hm
    (by simpa using hpre) (by simpa using hfail)
  have hinit : initMemoryMapping dev st =
      ((mapBuffersLoop dev 0 (dev.reqbufsGrant 4)).1,
        { st with buffers_ := (mapBuffersLoop dev 0 (dev.reqbufsGrant 4)).2 }) := by
    simp only [initMemoryMapping]
    rw [if_neg (by omega)]
  have h1 : (initMemoryMapping dev st).1 = false := by
    rw [hinit]; exact key.1
  refine ⟨h1, ?_, ?_⟩
  · rw [hinit]; exact key.2
  · simp only [start]
    rw [h1, if_pos rfl, ← h1]

/-- C3 witness: the amended statement at the concrete two-buffer device
whose second mapping fails. -/
theorem init_mapping_failure_no_rollback_witness :
    (initMemoryMapping devMap2 stBufs).1 = false ∧
    countMapped (initMemoryMapping devMap2 stBufs).2.buffers_ = 1 ∧
    start devMap2 stBufs = initMemoryMapping devMap2 stBufs :=
  init_mapping_failure_no_rollback devMap2 stBufs 1 (by decide) (by decide)
    (fun j hj => by interval_cases j; rfl) rfl

/-- Once `listControls` has hit the disabled control of `devDisabled`, the
`continue` re-queries the same plain id forever: no amount of fuel finishes
the loop. -/
theorem listControlsAux_disabled_stuck :
    ∀ fuel : Nat, listControlsAux devDisabled 0x00980900 fuel = none := by
  intro fuel
  induction fuel with
  | zero => rfl
  | succ n ih =>
    have step : listControlsAux devDisabled 0x00980900 (n + 1) =
        listControlsAux devDisabled 0x00980900 n := rfl
    rw [step]
    exact ih

/-- C4: the claim's enumeration terminates on devices signalling "no more
entries", but the code does not: on a device whose single control is
flagged disabled (and whose next-control query does eventually signal no
more entries), `listControls` never finishes — after the first
`V4L2_CTRL_FLAG_NEXT_CTRL` query returns the disabled control, `continue`
skips the id advance and the same id is re-queried forever. -/
theorem listControls_diverges_on_disabled_control (fuel : Nat) :
    listControls devDisabled fuel = none := by
  cases fuel with
  | zero => rfl
  | succ n =>
    have step : listControls devDisabled (n + 1) =
        listControlsAux devDisabled 0x00980900 n := rfl
    rw [step]
    exact listControlsAux_disabled_stuck n

/-- C5 counterexample: on a device whose file open succeeds but whose
capability query fails, `open()` still returns success — contradicting the
claim that open fails whenever the capability query fails. -/
theorem open_succeeds_despite_querycap_failure :
    devQC.querycapOk = false ∧
    (openDevice devQC st0 1).map Prod.fst = some true := by
  exact ⟨rfl, rfl⟩

/-- C5 amended: `open(path)` fails exactly when the path cannot be opened;
the capability query's result is ignored, so `open()` reports success
whenever the file open succeeds (and the enumeration loops terminate),
even if the capability query fails. -/
theorem open_fails_iff_file_open_fails (dev : Device) (st : CamState)
    (fuel : Nat) :
    (dev.openOk = false → openDevice dev st fuel = some (false, st)) ∧
    (∀ b : Bool, (openDevice dev st fuel).map Prod.fst = some b →
      (b = true ↔ dev.openOk = true)) := by
  constructor
  · intro h
    simp [openDevice, h]
  · intro b hb
    unfold openDevice at hb
    by_cases h : dev.openOk = false
    · rw [if_pos h] at hb
      simp at hb
      simp [h, ← hb]
    · rw [if_neg h] at hb
      cases hc : listControls dev fuel with
      | none => rw [hc] at hb; simp at hb
      | some ctls =>
        rw [hc] at hb
        simp at hb
        simp [← hb, eq_true_of_ne_false h]

/-- C5 witness: both parts of the amended statement at concrete devices
(one whose open fails, one whose open succeeds with failing capability
query). -/
theorem open_fails_iff_file_open_fails_witness :
    openDevice devNoOpen st0 1 = some (false, st0) ∧
    (true = true ↔ devQC.openOk = true) :=
  ⟨(open_fails_iff_file_open_fails devNoOpen st0 1).1 rfl,
   (open_fails_iff_file_open_fails devQC st0 1).2 true rfl⟩

/-- A single `requestImageSize` call issues at most one device request. -/
theorem requestImageSize_count_le_one (dev : Device) (st : CamState)
    (size : List Int) : (requestImageSize dev st size).2.2 ≤ 1 := by
  rcases size with _ | ⟨w, _ | ⟨h, _ | _⟩⟩
  · simp [requestImageSize]
  · simp [requestImageSize]
  · simp only [requestImageSize]
    split
    · simp
    · simp
  · simp [requestImageSize]

/-- The idempotent fast path of `requestImageSize`: requesting the already
current width and height succeeds with no device request. -/
theorem requestImageSize_fast_path (dev : Device) (st : CamState) (a b : Int)
    (hw : (st.cur_data_format_.width : Int) = a)
    (hh : (st.cur_data_format_.height : Int) = b) :
    requestImageSize dev st [a, b] = (true, st, 0) := by
  simp [requestImageSize, hw, hh]

/-- C6 counterexample: on a device that always substitutes 640x480, two
sequential `requestImageSize` calls for 800x600 both succeed and each issues
its own device-side format request — two requests, not at most one. -/
theorem negotiate_two_requests_on_substitution :
    (requestImageSize devSub st640 [800, 600]).1 = true ∧
    (requestImageSize devSub
      (requestImageSize devSub st640 [800, 600]).2.1 [800, 600]).1 = true ∧
    (requestImageSize devSub st640 [800, 600]).2.2 +
      (requestImageSize devSub
        (requestImageSize devSub st640 [800, 600]).2.1 [800, 600]).2.2 = 2 := by
  refine ⟨rfl, rfl, rfl⟩

/-- C6 amended: negotiation with a format/size equal to the currently
active one returns success with no device-side request (idempotent fast
path, for both the size and the pixel-format entry points); consequently
two sequential identical size requests issue at most one device request
provided the current format after the first call equals the requested size
(e.g. the device honoured the request exactly); when the device substitutes
another size or rejects the request, the second call issues a second
request. -/
theorem negotiate_idempotent_amended (dev : Device) (st : CamState)
    (a b : Int) (s : String) :
    ((st.cur_data_format_.width : Int) = a →
      (st.cur_data_format_.height : Int) = b →
      requestImageSize dev st [a, b] = (true, st, 0)) ∧
    (∀ c1 c2 c3 c4 : Char, s.toList = [c1, c2, c3, c4] →
      st.cur_data_format_.pixelFormat =
        v4l2_fourcc c1.toNat c2.toNat c3.toNat c4.toNat →
      requestPixelFormat dev st s = (true, st, 0)) ∧
    (((requestImageSize dev st [a, b]).2.1.cur_data_format_.width : Int) = a →
      ((requestImageSize dev st [a, b]).2.1.cur_data_format_.height : Int) = b →
      requestImageSize dev (requestImageSize dev st [a, b]).2.1 [a, b]
          = (true, (requestImageSize dev st [a, b]).2.1, 0) ∧
      (requestImageSize dev st [a, b]).2.2 +
        (requestImageSize dev
          (requestImageSize dev st [a, b]).2.1 [a, b]).2.2 ≤ 1) := by
  refine ⟨?_, ?_, ?_⟩
  · intro hw hh
    exact requestImageSize_fast_path dev st a b hw hh
  · intro c1 c2 c3 c4 hs hc
    unfold requestPixelFormat
    rw [hs]
    simp [hc]
  · intro hw hh
    have h2 := requestImageSize_fast_path dev
      (requestImageSize dev st [a, b]).2.1 a b hw hh
    refine ⟨h2, ?_⟩
    rw [h2, Nat.add_zero]
    exact requestImageSize_count_le_one dev st [a, b]

/-- C6 witness: the three amended parts at a concrete 640x480 session:
requesting the already-active size or pixel format is a no-op success, and
two identical already-matching calls issue zero device requests. -/
theorem negotiate_idempotent_amended_witness :
    requestImageSize devSub st640 [640, 480] = (true, st640, 0) ∧
    requestPixelFormat devSub st640 "YUYV" = (true, st640, 0) ∧
    (requestImageSize devSub (requestImageSize devSub st640 [640, 480]).2.1
        [640, 480]
      = (true, (requestImageSize devSub st640 [640, 480]).2.1, 0) ∧
    (requestImageSize devSub st640 [640, 480]).2.2 +
      (requestImageSize devSub (requestImageSize devSub st640 [640, 480]).2.1
        [640, 480]).2.2 ≤ 1) :=
  ⟨(negotiate_idempotent_amended devSub st640 640 480 "YUYV").1 rfl rfl,
   (negotiate_idempotent_amended devSub st640 640 480 "YUYV").2.1
     'Y' 'U' 'Y' 'V' rfl rfl,
   (negotiate_idempotent_amended devSub st640 640 480 "YUYV").2.2 rfl rfl⟩

/-- C7: a successful `requestDataFormat` stores as the session's current
format exactly the format the device reported back from the `VIDIOC_S_FMT`
request — whatever the request was. -/
theorem request_format_stores_device_report (dev : Device) (st : CamState)
    (format rep : PixFmt)
    (h : dev.s_fmt format.pixelFormat format.width format.height = some rep) :
    requestDataFormat dev st format = (true, { st with cur_data_format_ := rep }) := by
  simp [requestDataFormat, h]

/-- C7 witness: a device that substitutes 640x480 for a 800x600 request;
the stored format is the device's report, not the caller's request. -/
theorem request_format_stores_device_report_witness :
    requestDataFormat devSub st640 fmt800
        = (true, { st640 with cur_data_format_ := fmt640 }) ∧
    fmt640 ≠ fmt800 :=
  ⟨request_format_stores_device_report devSub st640 fmt800 fmt640 rfl,
   by decide⟩

/-- C8: when the control id is present in the cached control list and the
device's settability query succeeds, `setControlValue` forwards the value
to the device unmodified — with no software pre-validation against the
control's minimum/maximum — and returns exactly the device's accept-or-
reject decision on that very value. -/
theorem set_control_forwards_unvalidated (dev : Device) (st : CamState)
    (id : Nat) (value : Int) (c : Control)
    (hfind : st.controls_.find? (fun k => k.id == id) = some c)
    (hq : (exactCtrl dev.ctrls id).isSome = true) :
    setControlValue dev st id value = some (dev.s_ctrl id value) := by
  cases hs : dev.s_ctrl id value <;>
    simp [setControlValue, hfind, hq, hs]

/-- C8 witness: a value 50 above the control's reported maximum of 100 is
forwarded and the device's (accepting) verdict is returned unchanged. -/
theorem set_control_forwards_unvalidated_witness :
    controlBright.maximum < 150 ∧
    setControlValue devCtl stCtl 5 150 = some (devCtl.s_ctrl 5 150) :=
  ⟨by decide,
   set_control_forwards_unvalidated devCtl stCtl 5 150 controlBright rfl rfl⟩

/-- C10: `setControlValue` is safe (returns a defined result) whenever the
id is present in the cached enumerated controls; when the id is absent and
either the settability query or the set request fails, the error-logging
branch dereferences the end iterator of the control list — undefined
behaviour, modelled as `none`. -/
theorem set_control_end_iterator_safety (dev : Device) (st : CamState)
    (id : Nat) (value : Int) :
    ((st.controls_.find? (fun c => c.id == id)).isSome = true →
      (setControlValue dev st id value).isSome = true) ∧
    (st.controls_.find? (fun c => c.id == id) = none →
      ((exactCtrl dev.ctrls id).isSome = false ∨ dev.s_ctrl id value = false) →
      setControlValue dev st id value = none) := by
  constructor
  · intro hf
    rcases ho : st.controls_.find? (fun c => c.id == id) with _ | c
    · rw [ho] at hf; simp at hf
    · by_cases hq : (exactCtrl dev.ctrls id).isSome = true
      · cases hs : dev.s_ctrl id value <;>
          simp [setControlValue, ho, hq, hs]
      · simp at hq
        simp [setControlValue, ho, hq]
  · intro hf hbad
    by_cases hq : (exactCtrl dev.ctrls id).isSome = true
    · rcases hbad with hb | hb
      · rw [hq] at hb; exact absurd hb (by simp)
      · simp [setControlValue, hf, hq, hb]
    · simp at hq
      simp [setControlValue, hf, hq]

/-- C10 witness: with the id cached the call returns a defined result even
though the device rejects the value; with an empty cached control list and
a rejecting device, the call hits the end-iterator dereference. -/
theorem set_control_end_iterator_safety_witness :
    (setControlValue devReject stCtl 5 150).isSome = true ∧
    setControlValue devReject st0 5 150 = none :=
  ⟨(set_control_end_iterator_safety devReject stCtl 5 150).1 rfl,
   (set_control_end_iterator_safety devReject st0 5 150).2 rfl (Or.inr rfl)⟩
